import Mathlib

/-!
Verification of the Identity Resource Provisioning Orchestrator (server.js).

The definitions below are a shallow embedding of the Graph API service and of
the provisioning endpoint of `src/server.js`.  Remote directory calls are
modelled by explicit outcome oracles (`Except String _` valued functions), and
the HTTP requests a routine issues are recorded as a `DirOp` trace so that
frame properties ("this branch never patches the application") can be stated.
All data is first-order and decidable, so concrete runs evaluate by `decide`.
-/

/-- One entry of a `resourceAccess` array: a permission (scope or role)
identifier together with its kind, exactly as in the Graph payloads built by
`server.js`. -/
structure ResourceAccessEntry where
  id : String
  type : String
  deriving DecidableEq, Repr

/-- One entry of a `requiredResourceAccess` array: the target application id
plus the list of requested permissions. -/
structure RequiredResourceAccess where
  resourceAppId : String
  resourceAccess : List ResourceAccessEntry
  deriving DecidableEq, Repr

/-- Core list update performed by `GraphApiService.addApplicationPermission`
(server.js lines 1063-1099) once the target scope id has been resolved:
find the first entry for the target application; if it already holds the
scope id, leave the list unchanged; if it exists but lacks the scope, append
the scope to that entry; otherwise append a brand-new entry at the end. -/
def addApplicationPermission (rra : List RequiredResourceAccess)
    (targetAppId scopeId : String) : List RequiredResourceAccess :=
  match rra with
  | [] => [{ resourceAppId := targetAppId,
             resourceAccess := [{ id := scopeId, type := "Scope" }] }]
  | r :: rest =>
    if r.resourceAppId == targetAppId then
      if r.resourceAccess.any (fun a => a.id == scopeId) then r :: rest
      else { resourceAppId := r.resourceAppId,
             resourceAccess := r.resourceAccess ++ [{ id := scopeId, type := "Scope" }] } :: rest
    else r :: addApplicationPermission rest targetAppId scopeId

/-- The entries of a declared-permission list that reference a given target
application. -/
def entriesFor (rra : List RequiredResourceAccess) (targetAppId : String) :
    List RequiredResourceAccess :=
  rra.filter (fun r => r.resourceAppId == targetAppId)

/-- How many times a given scope id occurs inside one declared-permission
entry. -/
def scopeCount (r : RequiredResourceAccess) (scopeId : String) : Nat :=
  (r.resourceAccess.filter (fun a => a.id == scopeId)).length

/-- Applying the same permission edge a second time never changes the list:
after the first application the first entry for the target holds the scope,
so the second application takes the no-op branch. -/
theorem addApplicationPermission_idem (rra : List RequiredResourceAccess)
    (t s : String) :
    addApplicationPermission (addApplicationPermission rra t s) t s
      = addApplicationPermission rra t s := by
  induction rra with
  | nil => simp [addApplicationPermission]
  | cons r rest ih =>
    by_cases hm : r.resourceAppId = t
    · have hmb : (r.resourceAppId == t) = true := by simp [hm]
      by_cases hc : r.resourceAccess.any (fun a => a.id == s) = true
      · simp [addApplicationPermission, hmb, hc]
      · simp only [addApplicationPermission, hmb, if_true, hc, if_false,
          Bool.not_eq_true] at *
        simp [addApplicationPermission, hmb, hc, List.any_append]
    · have hmb : (r.resourceAppId == t) = false := by simp [hm]
      simp [addApplicationPermission, hmb, ih]

/-- In a well-formed state (at most one entry for the target, that entry
holding the scope at most once), a single application of the edge leaves
exactly one entry for the target, holding the scope exactly once. -/
theorem addApplicationPermission_wf (rra : List RequiredResourceAccess)
    (t s : String)
    (h1 : (entriesFor rra t).length ≤ 1)
    (h2 : ∀ r ∈ rra, r.resourceAppId = t → scopeCount r s ≤ 1) :
    (entriesFor (addApplicationPermission rra t s) t).length = 1 ∧
    ∀ r ∈ addApplicationPermission rra t s, r.resourceAppId = t →
      scopeCount r s = 1 := by
  induction rra with
  | nil =>
    refine ⟨by simp [addApplicationPermission, entriesFor], ?_⟩
    intro r hr hrt
    simp [addApplicationPermission] at hr
    subst hr
    simp [scopeCount]
  | cons r rest ih =>
    by_cases hm : r.resourceAppId = t
    · have hmb : (r.resourceAppId == t) = true := by simp [hm]
      have hcons : entriesFor (r :: rest) t = r :: entriesFor rest t := by
        simp [entriesFor, List.filter_cons, hmb]
      have hrest : entriesFor rest t = [] := by
        rw [hcons] at h1
        simp only [List.length_cons] at h1
        exact List.length_eq_zero.mp (Nat.le_zero.mp (Nat.le_of_succ_le_succ h1))
      have hnorest : ∀ x ∈ rest, ¬ (x.resourceAppId = t) := by
        intro x hx hxt
        have : x ∈ entriesFor rest t := by
          simp [entriesFor, List.mem_filter, hx, hxt]
        simp [hrest] at this
      by_cases hc : r.resourceAccess.any (fun a => a.id == s) = true
      · have heq : addApplicationPermission (r :: rest) t s = r :: rest := by
          simp [addApplicationPermission, hmb, hc]
        rw [heq]
        constructor
        · rw [hcons, hrest]; rfl
        · intro x hx hxt
          rcases List.mem_cons.mp hx with hxr | hxrest
          · subst hxr
            have hle : scopeCount x s ≤ 1 := h2 x (List.mem_cons_self _ _) hxt
            have hge : 1 ≤ scopeCount x s := by
              rcases List.any_eq_true.mp hc with ⟨a, ha, has⟩
              have : a ∈ x.resourceAccess.filter (fun a => a.id == s) :=
                List.mem_filter.mpr ⟨ha, has⟩
              have := List.length_pos.mpr (List.ne_nil_of_mem this)
              exact this
            omega
          · exact absurd hxt (hnorest x hxrest)
      · have hnone : ∀ a ∈ r.resourceAccess, ¬ ((a.id == s) = true) := by
          intro a ha has
          exact hc (List.any_eq_true.mpr ⟨a, ha, has⟩)
        have hfilnil : r.resourceAccess.filter (fun a => a.id == s) = [] :=
          List.filter_eq_nil_iff.mpr hnone
        have heq : addApplicationPermission (r :: rest) t s
            = { resourceAppId := r.resourceAppId,
                resourceAccess := r.resourceAccess
                  ++ [{ id := s, type := "Scope" }] } :: rest := by
          simp [addApplicationPermission, hmb, hc]
        rw [heq]
        constructor
        · have hrest0 : rest.filter (fun x => x.resourceAppId == t) = [] := by
            simpa [entriesFor] using hrest
          simp [entriesFor, List.filter_cons, hmb, hrest0]
        · intro x hx hxt
          rcases List.mem_cons.mp hx with hxr | hxrest
          · subst hxr
            simp [scopeCount, List.filter_append, hfilnil]
          · exact absurd hxt (hnorest x hxrest)
    · have hmb : (r.resourceAppId == t) = false := by simp [hm]
      have hskip : entriesFor (r :: rest) t = entriesFor rest t := by
        simp [entriesFor, List.filter_cons, hmb]
      rw [hskip] at h1
      have h2r : ∀ x ∈ rest, x.resourceAppId = t → scopeCount x s ≤ 1 := by
        intro x hx hxt
        exact h2 x (List.mem_cons_of_mem _ hx) hxt
      obtain ⟨ihlen, ihmem⟩ := ih h1 h2r
      have heq : addApplicationPermission (r :: rest) t s
          = r :: addApplicationPermission rest t s := by
        simp [addApplicationPermission, hmb]
      rw [heq]
      constructor
      · have : entriesFor (r :: addApplicationPermission rest t s) t
            = entriesFor (addApplicationPermission rest t s) t := by
          simp [entriesFor, List.filter_cons, hmb]
        rw [this]
        exact ihlen
      · intro x hx hxt
        rcases List.mem_cons.mp hx with hxr | hxrest
        · subst hxr; exact absurd hxt hm
        · exact ihmem x hxrest hxt

/-- C1: the claim quantifies over every source application state, but the
wiring code normalises nothing: starting from a list that already has two
entries for the target, applying the edge twice still leaves two entries for
that target; and starting from an entry that already holds the scope twice,
the double application is a no-op that leaves the scope duplicated.  Both
evaluations refute "exactly one entry for that target containing that scope
exactly once". -/
theorem c1_permission_edge_counterexample :
    (entriesFor (addApplicationPermission (addApplicationPermission
        [{ resourceAppId := "T", resourceAccess := [] },
         { resourceAppId := "T", resourceAccess := [] }] "T" "s") "T" "s")
      "T").length = 2 ∧
    scopeCount ((addApplicationPermission (addApplicationPermission
        [⟨"T", [⟨"s", "Scope"⟩, ⟨"s", "Scope"⟩]⟩] "T" "s")
        "T" "s").headD ⟨"", []⟩) "s" = 2 := by
  decide

/-- C1 (amended): for every source application state whose declared-permission
list holds at most one entry for the target, that entry holding the scope at
most once, applying the same permission edge twice leaves exactly one entry
for that target containing that scope exactly once; the second application is
always exactly a no-op. -/
theorem c1_permission_edge_idempotent (rra : List RequiredResourceAccess)
    (t s : String)
    (h1 : (entriesFor rra t).length ≤ 1)
    (h2 : ∀ r ∈ rra, r.resourceAppId = t → scopeCount r s ≤ 1) :
    addApplicationPermission (addApplicationPermission rra t s) t s
      = addApplicationPermission rra t s ∧
    (entriesFor (addApplicationPermission (addApplicationPermission rra t s)
        t s) t).length = 1 ∧
    ∀ r ∈ addApplicationPermission (addApplicationPermission rra t s) t s,
      r.resourceAppId = t → scopeCount r s = 1 := by
  have hidem := addApplicationPermission_idem rra t s
  obtain ⟨hlen, hmem⟩ := addApplicationPermission_wf rra t s h1 h2
  refine ⟨hidem, ?_, ?_⟩
  · rw [hidem]; exact hlen
  · rw [hidem]; exact hmem

/-- C1 witness: the amended theorem applied to the empty permission list. -/
theorem c1_permission_edge_witness :
    addApplicationPermission (addApplicationPermission [] "T" "s") "T" "s"
      = addApplicationPermission [] "T" "s" ∧
    (entriesFor (addApplicationPermission (addApplicationPermission []
        "T" "s") "T" "s") "T").length = 1 :=
  ⟨(c1_permission_edge_idempotent [] "T" "s" (by decide) (by decide)).1,
   (c1_permission_edge_idempotent [] "T" "s" (by decide) (by decide)).2.1⟩

/-- Substring prefix test on character lists (used to model JavaScript's
`String.prototype.includes`). -/
def hasPrefixChars : List Char → List Char → Bool
  | _, [] => true
  | [], _ :: _ => false
  | a :: s, b :: p => a == b && hasPrefixChars s p

/-- Substring occurrence test on character lists. -/
def containsSub (pat : List Char) : List Char → Bool
  | [] => hasPrefixChars [] pat
  | c :: t => hasPrefixChars (c :: t) pat || containsSub pat t

/-- JavaScript's `s.includes(pat)`. -/
def strIncludes (s pat : String) : Bool :=
  containsSub pat.data s.data

/-- Boolean success test for an `Except` outcome. -/
def exceptIsOk {α : Type} (e : Except String α) : Bool :=
  match e with
  | Except.ok _ => true
  | Except.error _ => false

/-- Inner loop of `GraphApiService.grantAdminConsent` (server.js lines
587-636): for each permission of a resource, role-type permissions are
granted; a grant error whose message contains "already exists" (or the longer
"Permission being assigned already exists") still counts as granted; any
other error leaves the accumulator unchanged and the loop continues. -/
def grantPermissions (grantRole : String → String → Except String Unit)
    (rid : String) : List ResourceAccessEntry → Bool → Bool
  | [], acc => acc
  | p :: rest, acc =>
    if p.type == "Role" then
      match grantRole rid p.id with
      | Except.ok _ => grantPermissions grantRole rid rest true
      | Except.error msg =>
        if strIncludes msg "already exists"
            || strIncludes msg "Permission being assigned already exists" then
          grantPermissions grantRole rid rest true
        else grantPermissions grantRole rid rest acc
    else grantPermissions grantRole rid rest acc

/-- Outer loop of `GraphApiService.grantAdminConsent` (server.js lines
583-637): per resource, the service-principal lookup
`getServicePrincipalIdByAppId` runs outside the per-permission try/catch, so
a lookup failure escapes to the outer catch, which returns `false` and
abandons the remaining resources. -/
def grantConsentLoop (spIdByAppId : String → Except String String)
    (grantRole : String → String → Except String Unit) :
    List RequiredResourceAccess → Bool → Bool
  | [], acc => acc
  | r :: rest, acc =>
    match spIdByAppId r.resourceAppId with
    | Except.error _ => false
    | Except.ok _ =>
      grantConsentLoop spIdByAppId grantRole rest
        (grantPermissions grantRole r.resourceAppId r.resourceAccess acc)

/-- `GraphApiService.grantAdminConsent` (server.js lines 576-654), with the
two remote calls abstracted as outcome oracles. -/
def grantAdminConsent (rra : List RequiredResourceAccess)
    (spIdByAppId : String → Except String String)
    (grantRole : String → String → Except String Unit) : Bool :=
  grantConsentLoop spIdByAppId grantRole rra false

/-- A permission counts towards the consent flag when it is role-type and its
grant either succeeded or failed with an "already exists" message. -/
def roleGrantRecognized (grantRole : String → String → Except String Unit)
    (rid : String) (p : ResourceAccessEntry) : Bool :=
  p.type == "Role" &&
    (match grantRole rid p.id with
     | Except.ok _ => true
     | Except.error msg =>
       strIncludes msg "already exists"
         || strIncludes msg "Permission being assigned already exists")

/-- The permission loop computes the disjunction of its accumulator with the
recognized-grant flag of each permission. -/
theorem grantPermissions_eq (g : String → String → Except String Unit)
    (rid : String) (perms : List ResourceAccessEntry) (acc : Bool) :
    grantPermissions g rid perms acc
      = (acc || perms.any (roleGrantRecognized g rid)) := by
  induction perms generalizing acc with
  | nil => simp [grantPermissions]
  | cons p rest ih =>
    by_cases ht : (p.type == "Role") = true
    · cases hg : g rid p.id with
      | ok u =>
        simp [grantPermissions, ht, hg, ih, roleGrantRecognized, List.any_cons]
      | error msg =>
        by_cases hinc : (strIncludes msg "already exists"
            || strIncludes msg "Permission being assigned already exists") = true
        · simp [grantPermissions, ht, hg, hinc, ih, roleGrantRecognized,
            List.any_cons]
        · simp only [Bool.not_eq_true] at hinc
          simp [grantPermissions, ht, hg, hinc, ih, roleGrantRecognized,
            List.any_cons]
    · simp only [Bool.not_eq_true] at ht
      simp [grantPermissions, ht, ih, roleGrantRecognized, List.any_cons]

/-- When every resource's service-principal lookup succeeds, the consent loop
computes the disjunction over all resources and permissions. -/
theorem grantConsentLoop_eq (sp : String → Except String String)
    (g : String → String → Except String Unit)
    (rra : List RequiredResourceAccess) (acc : Bool)
    (h : ∀ r ∈ rra, ∃ sid, sp r.resourceAppId = Except.ok sid) :
    grantConsentLoop sp g rra acc
      = (acc || rra.any (fun r =>
          r.resourceAccess.any (roleGrantRecognized g r.resourceAppId))) := by
  induction rra generalizing acc with
  | nil => simp [grantConsentLoop]
  | cons r rest ih =>
    obtain ⟨sid, hsid⟩ := h r (List.mem_cons_self _ _)
    have hrest : ∀ x ∈ rest, ∃ sid, sp x.resourceAppId = Except.ok sid := by
      intro x hx
      exact h x (List.mem_cons_of_mem _ hx)
    simp [grantConsentLoop, hsid, grantPermissions_eq, ih _ hrest,
      List.any_cons, Bool.or_assoc]

/-- Grant-outcome oracle for the C2 counterexample: granting permission `p1`
succeeds, every other grant fails outright. -/
def c2grantOracle : String → String → Except String Unit :=
  fun _ pid => if pid == "p1" then Except.ok () else Except.error "boom"

/-- Service-principal-lookup oracle for the C2 counterexample: the lookup
succeeds for resource `A` and fails for every other resource. -/
def c2spOracle : String → Except String String :=
  fun rid =>
    if rid == "A" then Except.ok "spA"
    else Except.error "Could not find service principal: request failed"

/-- Claim C2 counterexample: the role permission `p1` of resource `A` is
granted successfully (first conjunct), yet `grantAdminConsent` returns
`false`, because the service-principal lookup for the second resource `B`
throws past the per-permission error handling into the outer catch.  This
refutes "returns true if and only if at least one role-type permission was
successfully granted", and shows a failure that does abort the remaining
attempts. -/
theorem c2_admin_consent_counterexample :
    exceptIsOk (c2grantOracle "A" "p1") = true ∧
    grantAdminConsent
      [⟨"A", [⟨"p1", "Role"⟩]⟩, ⟨"B", [⟨"p2", "Role"⟩]⟩]
      c2spOracle c2grantOracle = false := by
  decide

/-- Claim C2 (amended): provided the service-principal lookup succeeds for
every resource entry, the admin authorization step returns true if and only if
at least one role-type permission was successfully granted or its grant failed
with an error message containing "already exists"; under that proviso no
single permission failure aborts the attempts for the remaining permissions,
and it returns false only when every attempt failed outright. -/
theorem c2_admin_consent_iff (rra : List RequiredResourceAccess)
    (sp : String → Except String String)
    (g : String → String → Except String Unit)
    (h : ∀ r ∈ rra, ∃ sid, sp r.resourceAppId = Except.ok sid) :
    grantAdminConsent rra sp g = true ↔
      ∃ r ∈ rra, ∃ p ∈ r.resourceAccess, p.type = "Role" ∧
        (g r.resourceAppId p.id = Except.ok () ∨
         ∃ msg, g r.resourceAppId p.id = Except.error msg ∧
           (strIncludes msg "already exists" = true ∨
            strIncludes msg "Permission being assigned already exists" = true)) := by
  rw [grantAdminConsent, grantConsentLoop_eq sp g rra false h]
  simp only [Bool.false_or, List.any_eq_true]
  constructor
  · rintro ⟨r, hr, p, hpmem, hpred⟩
    refine ⟨r, hr, p, hpmem, ?_⟩
    simp only [roleGrantRecognized, Bool.and_eq_true, beq_iff_eq] at hpred
    obtain ⟨htype, hflag⟩ := hpred
    refine ⟨htype, ?_⟩
    cases hg : g r.resourceAppId p.id with
    | ok u =>
      left
      cases u
      rfl
    | error msg =>
      right
      rw [hg] at hflag
      exact ⟨msg, rfl, by simpa using hflag⟩
  · rintro ⟨r, hr, p, hpmem, htype, hcase⟩
    refine ⟨r, hr, p, hpmem, ?_⟩
    simp only [roleGrantRecognized, Bool.and_eq_true, beq_iff_eq]
    refine ⟨htype, ?_⟩
    rcases hcase with hok | ⟨msg, herr, hdisj⟩
    · rw [hok]
    · rw [herr]
      rcases hdisj with hd | hd <;> simp [hd]

/-- Claim C2 witness: the amended theorem applied to a single resource with a
single role permission whose grant succeeds. -/
theorem c2_admin_consent_witness :
    grantAdminConsent [⟨"A", [⟨"p1", "Role"⟩]⟩]
      (fun _ => Except.ok "spA") (fun _ _ => Except.ok ()) = true :=
  (c2_admin_consent_iff [⟨"A", [⟨"p1", "Role"⟩]⟩]
      (fun _ => Except.ok "spA") (fun _ _ => Except.ok ())
      (by intro r hr; exact ⟨"spA", rfl⟩)).mpr
    ⟨⟨"A", [⟨"p1", "Role"⟩]⟩, by decide, ⟨"p1", "Role"⟩, by decide, rfl,
      Or.inl rfl⟩

/-- A Graph application object as returned by directory lookups and creates:
object id, application (client) id, display name. -/
structure AppObject where
  id : String
  appId : String
  displayName : String
  deriving DecidableEq, Repr

/-- A Graph service-principal object (only its object id is consumed). -/
structure SPObj where
  id : String
  deriving DecidableEq, Repr

/-- `GraphApiService.checkExistingApplication` (server.js lines 266-283):
on a successful lookup it returns the first match (or none for an empty
result) and emits no warning; on a request error it warns and returns none.
The lookup outcome is abstracted as an oracle; the second component records
the `console.warn` output of the call. -/
def checkExistingApplication
    (findApps : String → Except String (List AppObject))
    (displayName : String) : Option AppObject × List String :=
  match findApps displayName with
  | Except.ok vs => (vs.head?, [])
  | Except.error e => (none, ["Error checking existing application: " ++ e])

/-- `GraphApiService.checkExistingServicePrincipal` (server.js lines
290-307), same shape as the application lookup. -/
def checkExistingServicePrincipal
    (findSps : String → Except String (List SPObj))
    (appId : String) : Option SPObj × List String :=
  match findSps appId with
  | Except.ok vs => (vs.head?, [])
  | Except.error e =>
    (none, ["Error checking existing service principal: " ++ e])

/-- Claim C7 counterexample: when the directory returns two applications for
the same name, the resolver selects the first but its warning output is
empty — the code has no ambiguity warning (its only `console.warn` is on the
error path), refuting "selects the first result and logs a warning". -/
theorem c7_resolver_counterexample :
    checkExistingApplication
      (fun _ => Except.ok [⟨"o1", "a1", "dup"⟩, ⟨"o2", "a2", "dup"⟩]) "dup"
      = (some ⟨"o1", "a1", "dup"⟩, []) := by
  decide

/-- Claim C7 (amended): for every display-name lookup where the directory
returns multiple matches, the resolver deterministically selects the first
result, logs no warning, and never fails the run over the ambiguity (the
lookup's success branch is total and warning-free). -/
theorem c7_resolver_first_match
    (findApps : String → Except String (List AppObject))
    (displayName : String) (l : List AppObject)
    (h : findApps displayName = Except.ok l) :
    checkExistingApplication findApps displayName = (l.head?, []) := by
  simp [checkExistingApplication, h]

/-- Claim C7 witness: the amended theorem applied to a two-match directory
answer. -/
theorem c7_resolver_first_match_witness :
    checkExistingApplication
      (fun _ => Except.ok [⟨"oa", "ia", "x"⟩, ⟨"ob", "ib", "x"⟩]) "x"
      = (some ⟨"oa", "ia", "x"⟩, []) :=
  c7_resolver_first_match _ "x" [⟨"oa", "ia", "x"⟩, ⟨"ob", "ib", "x"⟩] rfl

/-- The HTTP requests a provisioning routine can issue against the
directory, recorded as a trace. -/
inductive DirOp where
  | getApplications (filterName : String)
  | getServicePrincipals (filterAppId : String)
  | postApplication
  | patchApplication (objectId : String)
  | postServicePrincipal
  | addPassword (objectId : String)
  deriving DecidableEq, Repr

/-- Requests that create or reconfigure an application or principal (as
opposed to reads and credential minting). -/
def DirOp.isConfigWrite : DirOp → Bool
  | DirOp.postApplication => true
  | DirOp.patchApplication _ => true
  | DirOp.postServicePrincipal => true
  | _ => false

/-- Credential-minting requests. -/
def DirOp.isMint : DirOp → Bool
  | DirOp.addPassword _ => true
  | _ => false

/-- Service-principal creation requests. -/
def DirOp.isPostSp : DirOp → Bool
  | DirOp.postServicePrincipal => true
  | _ => false

/-- SAML settings of an enterprise spec (server.js lines 1332-1341). -/
structure SamlSettings where
  identifier : String
  replyUrl : String
  signOnUrl : String
  deriving DecidableEq, Repr

/-- Application-proxy settings of an enterprise spec. -/
structure ProxySettings where
  internalUrl : String
  externalUrl : String
  deriving DecidableEq, Repr

/-- Input descriptor of one enterprise application (server.js lines
1327-1361). -/
structure EnterpriseConfig where
  name : String
  uniqueId : String
  type : String
  samlSettings : Option SamlSettings
  proxySettings : Option ProxySettings
  deriving DecidableEq, Repr

/-- The application payload `createEnterpriseApplication` builds (server.js
lines 754-766): the identifier URI and reply-URL web block are attached only
for the SAML profile. -/
structure EntAppData where
  displayName : String
  signInAudience : String
  identifierUris : Option (List String)
  webRedirectUris : Option (List String)
  deriving DecidableEq, Repr

/-- The service-principal payload `createEnterpriseApplication` builds
(server.js lines 781-790): the enterprise tag is always attached; the
`preferredSingleSignOnMode` property is set (to "saml") only for the SAML
profile and omitted otherwise. -/
structure EntSpData where
  appId : String
  tags : List String
  preferredSingleSignOnMode : Option String
  deriving DecidableEq, Repr

/-- Builds the enterprise application payload exactly as server.js lines
754-766. -/
def enterpriseAppData (cfg : EnterpriseConfig) : EntAppData :=
  if cfg.type == "saml" then
    match cfg.samlSettings with
    | some s =>
      { displayName := cfg.name, signInAudience := "AzureADMyOrg",
        identifierUris := some [s.identifier],
        webRedirectUris := some [s.replyUrl] }
    | none =>
      { displayName := cfg.name, signInAudience := "AzureADMyOrg",
        identifierUris := none, webRedirectUris := none }
  else
    { displayName := cfg.name, signInAudience := "AzureADMyOrg",
      identifierUris := none, webRedirectUris := none }

/-- Builds the enterprise service-principal payload exactly as server.js
lines 781-790. -/
def enterpriseSpData (cfg : EnterpriseConfig) (appId : String) : EntSpData :=
  { appId := appId,
    tags := ["WindowsAzureActiveDirectoryIntegratedApp"],
    preferredSingleSignOnMode :=
      if cfg.type == "saml" then some "saml" else none }

/-- Per-resource outcome of the enterprise provisioner (server.js lines
740-751 and 805-816). -/
structure EnterpriseResult where
  appId : String
  objectId : String
  displayName : String
  servicePrincipalId : String
  type : String
  uniqueId : String
  ssoMode : String
  samlSettings : Option SamlSettings
  proxySettings : Option ProxySettings
  isExisting : Bool
  deriving DecidableEq, Repr

/-- Outcome oracles for one `createEnterpriseApplication` invocation.  The
service-principal POST outcome is given as a list of successive attempt
outcomes so that retry behaviour (or its absence) is observable. -/
structure EntEnv where
  findApps : String → Except String (List AppObject)
  findSps : String → Except String (List SPObj)
  createApp : EntAppData → Except String AppObject
  createSpAttempts : EntSpData → List (Except String SPObj)

/-- `GraphApiService.createEnterpriseApplication` (server.js lines 727-824):
adopt the first name match if one exists; otherwise POST the application,
then POST the service principal exactly once — the head of the attempt
list — with no retry; any failure of either POST aborts the resource.  The
outcome's `ssoMode` is "saml" for the SAML profile and "none" otherwise. -/
def createEnterpriseApplication (env : EntEnv) (cfg : EnterpriseConfig) :
    Except String EnterpriseResult × List DirOp :=
  let chk := checkExistingApplication env.findApps cfg.name
  match chk.1 with
  | some ex =>
    let spChk := checkExistingServicePrincipal env.findSps ex.appId
    (Except.ok
      { appId := ex.appId, objectId := ex.id, displayName := ex.displayName,
        servicePrincipalId :=
          (match spChk.1 with | some sp => sp.id | none => "Not found"),
        type := cfg.type, uniqueId := cfg.uniqueId,
        ssoMode := if cfg.type == "saml" then "saml" else "none",
        samlSettings := cfg.samlSettings, proxySettings := cfg.proxySettings,
        isExisting := true },
     [DirOp.getApplications cfg.name, DirOp.getServicePrincipals ex.appId])
  | none =>
    match env.createApp (enterpriseAppData cfg) with
    | Except.error e =>
      (Except.error ("Failed to create enterprise application: " ++ e),
       [DirOp.getApplications cfg.name, DirOp.postApplication])
    | Except.ok created =>
      match (env.createSpAttempts
          (enterpriseSpData cfg created.appId)).headD
          (Except.error "no response") with
      | Except.error e =>
        (Except.error ("Failed to create enterprise application: " ++ e),
         [DirOp.getApplications cfg.name, DirOp.postApplication,
          DirOp.postServicePrincipal])
      | Except.ok sp =>
        (Except.ok
          { appId := created.appId, objectId := created.id,
            displayName := created.displayName,
            servicePrincipalId := sp.id,
            type := cfg.type, uniqueId := cfg.uniqueId,
            ssoMode := if cfg.type == "saml" then "saml" else "none",
            samlSettings := cfg.samlSettings,
            proxySettings := cfg.proxySettings,
            isExisting := false },
         [DirOp.getApplications cfg.name, DirOp.postApplication,
          DirOp.postServicePrincipal])

/-- Projects the single-sign-on mode out of a successful enterprise
outcome. -/
def ssoModeOf (e : Except String EnterpriseResult) : Option String :=
  match e with
  | Except.ok r => some r.ssoMode
  | Except.error _ => none

instance {ε α : Type} [DecidableEq ε] [DecidableEq α] : DecidableEq (Except ε α)
  | Except.ok x, Except.ok y => decidable_of_iff (x = y) (by simp)
  | Except.ok _, Except.error _ => isFalse (fun h => Except.noConfusion h)
  | Except.error _, Except.ok _ => isFalse (fun h => Except.noConfusion h)
  | Except.error e, Except.error f => decidable_of_iff (e = f) (by simp)

/-- Claim C3 counterexample: provisioning the proxy-only "chat-app"
enterprise spec against a clean directory yields an outcome whose `ssoMode`
is `"none"` — the code never sets the principal's single-sign-on mode for
the proxy profile (the built service-principal payload omits
`preferredSingleSignOnMode` entirely), refuting "single-sign-on mode set to
the integrated/delegated protocol". -/
theorem c3_proxy_only_counterexample :
    ssoModeOf (createEnterpriseApplication
      { findApps := fun _ => Except.ok [],
        findSps := fun _ => Except.ok [],
        createApp := fun _ =>
          Except.ok ⟨"obj1", "appX", "myapp-dev-chat-proxy-app"⟩,
        createSpAttempts := fun _ => [Except.ok ⟨"sp1"⟩] }
      { name := "myapp-dev-chat-proxy-app", uniqueId := "CHAT_PROXY_APP",
        type := "proxy-only", samlSettings := none,
        proxySettings := some ⟨"http://internal-chat-app.company.com",
          "https://chat-app-external.company.com"⟩ }).1 = some "none" ∧
    (enterpriseSpData
      { name := "myapp-dev-chat-proxy-app", uniqueId := "CHAT_PROXY_APP",
        type := "proxy-only", samlSettings := none,
        proxySettings := some ⟨"http://internal-chat-app.company.com",
          "https://chat-app-external.company.com"⟩ }
      "appX").preferredSingleSignOnMode = none := by
  decide

/-- Claim C3 (amended): for a proxy-only enterprise spec, no identifier URI
is set on the application, the principal carries the enterprise
integrated-app tag and never the SAML tag or SAML mode, and no
single-sign-on mode is set on the principal at all — the provisioned
outcome reports `ssoMode = "none"` (not the integrated/delegated
protocol). -/
theorem c3_proxy_only_profile (cfg : EnterpriseConfig) (a : String)
    (h : cfg.type = "proxy-only") :
    (enterpriseAppData cfg).identifierUris = none ∧
    (enterpriseSpData cfg a).tags
      = ["WindowsAzureActiveDirectoryIntegratedApp"] ∧
    (enterpriseSpData cfg a).preferredSingleSignOnMode = none ∧
    ∀ env r ops, createEnterpriseApplication env cfg = (Except.ok r, ops) →
      r.ssoMode = "none" := by
  have hb : (cfg.type == "saml") = false := by simp [h]
  refine ⟨?_, ?_, ?_, ?_⟩
  · simp [enterpriseAppData, hb]
  · simp [enterpriseSpData]
  · simp [enterpriseSpData, hb]
  · intro env r ops hout
    simp only [createEnterpriseApplication, hb, if_false] at hout
    split at hout
    · simp only [Prod.mk.injEq, Except.ok.injEq] at hout
      obtain ⟨hr, -⟩ := hout
      subst hr
      rfl
    · split at hout
      · simp at hout
      · split at hout
        · simp at hout
        · simp only [Prod.mk.injEq, Except.ok.injEq] at hout
          obtain ⟨hr, -⟩ := hout
          subst hr
          rfl

/-- Claim C3 witness: the amended theorem applied to a concrete proxy-only
spec. -/
theorem c3_proxy_only_witness :
    (enterpriseAppData
      ⟨"chat-app", "CHAT_PROXY_APP", "proxy-only", none, none⟩).identifierUris
      = none ∧
    (enterpriseSpData
      ⟨"chat-app", "CHAT_PROXY_APP", "proxy-only", none, none⟩
      "appY").preferredSingleSignOnMode = none :=
  ⟨(c3_proxy_only_profile
      ⟨"chat-app", "CHAT_PROXY_APP", "proxy-only", none, none⟩ "appY" rfl).1,
   (c3_proxy_only_profile
      ⟨"chat-app", "CHAT_PROXY_APP", "proxy-only", none, none⟩
      "appY" rfl).2.2.1⟩

/-- Directory oracle for the C8 analysis: no existing application, the
application POST succeeds, the first service-principal POST fails with a
not-yet-indexed error, and a second attempt would succeed. -/
def c8env : EntEnv :=
  { findApps := fun _ => Except.ok [],
    findSps := fun _ => Except.ok [],
    createApp := fun _ => Except.ok ⟨"obj1", "appP", "proxy"⟩,
    createSpAttempts := fun _ =>
      [Except.error "Request_ResourceNotFound: application not yet indexed",
       Except.ok ⟨"sp9"⟩] }

/-- Enterprise spec for the C8 analysis. -/
def c8cfg : EnterpriseConfig :=
  { name := "proxy", uniqueId := "CHAT_PROXY_APP", type := "proxy-only",
    samlSettings := none, proxySettings := none }

/-- Claim C8 counterexample: when the directory has not yet indexed the
just-created application, the principal-create call fails; the code makes
exactly one service-principal POST (no retry, no backoff) and fails the
resource, even though the very next attempt would have succeeded.  This
refutes "retried a bounded number of times with a short backoff". -/
theorem c8_no_retry_counterexample :
    (createEnterpriseApplication c8env c8cfg).1
      = Except.error ("Failed to create enterprise application: "
          ++ "Request_ResourceNotFound: application not yet indexed") ∧
    ((createEnterpriseApplication c8env c8cfg).2.countP DirOp.isPostSp) = 1 ∧
    exceptIsOk (((c8env.createSpAttempts
        (enterpriseSpData c8cfg "appP")).drop 1).headD
        (Except.error "none")) = true := by
  decide

/-- Claim C8 (amended): enterprise principal creation is never deferred or
skipped — whenever the application POST succeeds the service-principal POST
is issued immediately and exactly once — but it is not retried: if that
single attempt fails (for instance because the directory has not yet
indexed the application), the enterprise resource fails with that error. -/
theorem c8_principal_single_attempt (env : EntEnv) (cfg : EnterpriseConfig)
    (h0 : env.findApps cfg.name = Except.ok [])
    (created : AppObject)
    (h1 : env.createApp (enterpriseAppData cfg) = Except.ok created) :
    ((createEnterpriseApplication env cfg).2.countP DirOp.isPostSp = 1) ∧
    (∀ e rest, env.createSpAttempts (enterpriseSpData cfg created.appId)
        = Except.error e :: rest →
      (createEnterpriseApplication env cfg).1
        = Except.error ("Failed to create enterprise application: " ++ e)) := by
  have hchk : checkExistingApplication env.findApps cfg.name = (none, []) := by
    simp [checkExistingApplication, h0]
  constructor
  · simp only [createEnterpriseApplication, hchk, h1]
    cases hsp : (env.createSpAttempts
        (enterpriseSpData cfg created.appId)).headD
        (Except.error "no response") with
    | ok sp =>
      simp [hsp, List.countP_cons, List.countP_nil, DirOp.isPostSp]
    | error e =>
      simp [hsp, List.countP_cons, List.countP_nil, DirOp.isPostSp]
  · intro e rest hatt
    simp only [createEnterpriseApplication, hchk, h1, hatt]
    simp [List.headD]

/-- Claim C8 witness: the amended theorem applied to the concrete
not-yet-indexed directory oracle. -/
theorem c8_principal_single_attempt_witness :
    (createEnterpriseApplication c8env c8cfg).2.countP DirOp.isPostSp = 1 :=
  (c8_principal_single_attempt c8env c8cfg rfl ⟨"obj1", "appP", "proxy"⟩
    rfl).1

/-- Input descriptor of one app registration (server.js lines 1265-1302). -/
structure AppConfig where
  name : String
  uniqueId : String
  scopes : List String
  type : String
  redirectUris : List String
  generateSecret : Bool
  grantAdminConsent : Bool
  deriving DecidableEq, Repr

/-- One exposed OAuth2 permission scope as built by `createAppRegistration`
(server.js lines 409-418). -/
structure PermissionScopeDef where
  id : String
  adminConsentDescription : String
  adminConsentDisplayName : String
  userConsentDescription : String
  userConsentDisplayName : String
  value : String
  type : String
  isEnabled : Bool
  deriving DecidableEq, Repr

/-- The `web` platform block of an application payload. -/
structure WebConfig where
  redirectUris : List String
  enableIdTokenIssuance : Bool
  enableAccessTokenIssuance : Bool
  deriving DecidableEq, Repr

/-- The application payload built by `createAppRegistration` for a new
application (server.js lines 404-440). -/
structure NewAppData where
  displayName : String
  signInAudience : String
  requestedAccessTokenVersion : Nat
  oauth2PermissionScopes : List PermissionScopeDef
  requiredResourceAccess : List RequiredResourceAccess
  web : Option WebConfig
  spa : Option (List String)
  deriving DecidableEq, Repr

/-- `GraphApiService.getAppPermissionsByUniqueId` (server.js lines 315-347):
the connector app receives the advanced Microsoft Graph role permissions,
every other app the single delegated User.Read scope. -/
def getAppPermissionsByUniqueId (appUniqueId : String) :
    List RequiredResourceAccess :=
  if appUniqueId == "MAHI_CONNECTOR_APP" then
    [{ resourceAppId := "00000003-0000-0000-c000-000000000000",
       resourceAccess :=
        [⟨"9e3f62cf-ca93-4989-b6ce-bf83c28f9fe8", "Role"⟩,
         ⟨"c79f8feb-a9db-4090-85f9-90d820caa0eb", "Role"⟩,
         ⟨"09850681-111b-4a89-9bed-3f2cae46d706", "Role"⟩,
         ⟨"6e472fd1-ad78-48da-a0f0-97ab2c6b769e", "Role"⟩,
         ⟨"df021288-bdef-4463-88db-98f22de89214", "Role"⟩,
         ⟨"5b567255-7703-4780-807c-7be8301ae99b", "Role"⟩,
         ⟨"62a82d76-70ea-41e2-9197-370581804d09", "Role"⟩,
         ⟨"9a5d68dd-52b0-4cc2-bd40-abcf44ac3a30", "Role"⟩,
         ⟨"e1fe6dd8-ba31-4d61-89e7-88639da4683d", "Scope"⟩] }]
  else
    [{ resourceAppId := "00000003-0000-0000-c000-000000000000",
       resourceAccess := [⟨"e1fe6dd8-ba31-4d61-89e7-88639da4683d", "Scope"⟩] }]

/-- Builds the new-application payload exactly as server.js lines 404-440;
`freshGuids` supplies the generated scope identifiers. -/
def buildApplicationData (cfg : AppConfig) (freshGuids : Nat → String) :
    NewAppData :=
  { displayName := cfg.name,
    signInAudience := "AzureADMyOrg",
    requestedAccessTokenVersion := 2,
    oauth2PermissionScopes := cfg.scopes.enum.map (fun p =>
      { id := freshGuids p.1,
        adminConsentDescription := "Allow the application to " ++ p.2,
        adminConsentDisplayName := p.2,
        userConsentDescription :=
          "Allow the application to " ++ p.2 ++ " on your behalf",
        userConsentDisplayName := p.2,
        value := p.2,
        type := "User",
        isEnabled := true }),
    requiredResourceAccess := getAppPermissionsByUniqueId cfg.uniqueId,
    web :=
      if cfg.type == "web" then
        some { redirectUris := cfg.redirectUris,
               enableIdTokenIssuance := true,
               enableAccessTokenIssuance := false }
      else none,
    spa := if cfg.type == "spa" then some cfg.redirectUris else none }

/-- Per-resource outcome of the application provisioner (server.js lines
389-400 and 509-524). -/
structure AppRegResult where
  appId : String
  objectId : String
  displayName : String
  clientSecret : String
  servicePrincipalId : String
  redirectUris : List String
  type : String
  uniqueId : String
  isExisting : Bool
  adminConsentGranted : Bool
  applicationIdUri : Option String
  deriving DecidableEq, Repr

/-- Outcome oracles for one `createAppRegistration` invocation. -/
structure AppEnv where
  findApps : String → Except String (List AppObject)
  findSps : String → Except String (List SPObj)
  addPassword : String → Except String String
  createApp : NewAppData → Except String AppObject
  patchApp : String → Except String Unit
  createSp : String → Except String SPObj
  spIdByAppId : String → Except String String
  grantRole : String → String → Except String Unit
  freshGuids : Nat → String

/-- Tail of the new-application path of `createAppRegistration` (server.js
lines 461-524): mint the secret unless disabled (a minting failure degrades
to a placeholder plus warning), POST the service principal (failure aborts
the resource), then attempt admin consent when requested — the
`requiredResourceAccess` array built earlier is always non-empty, so the
JavaScript truthiness guard reduces to the flag itself. -/
def createAppRegistrationFinish (cfg : AppConfig) (env : AppEnv)
    (created : AppObject) (ops : List DirOp) (warns : List String) :
    Except String AppRegResult × List DirOp × List String :=
  let secretStep : String × List DirOp × List String :=
    if cfg.generateSecret then
      match env.addPassword created.id with
      | Except.ok s => (s, [DirOp.addPassword created.id], [])
      | Except.error e =>
        ("Secret generation failed - create manually if needed",
         [DirOp.addPassword created.id],
         ["Could not create client secret: " ++ e])
    else ("Secret generation skipped - create manually if needed", [], [])
  match env.createSp created.appId with
  | Except.error e =>
    (Except.error ("Failed to create app registration: " ++ e),
     ops ++ secretStep.2.1 ++ [DirOp.postServicePrincipal],
     warns ++ secretStep.2.2)
  | Except.ok sp =>
    let granted :=
      if cfg.grantAdminConsent then
        grantAdminConsent (getAppPermissionsByUniqueId cfg.uniqueId)
          env.spIdByAppId env.grantRole
      else false
    (Except.ok
      { appId := created.appId, objectId := created.id,
        displayName := created.displayName,
        clientSecret := secretStep.1, servicePrincipalId := sp.id,
        redirectUris := cfg.redirectUris, type := cfg.type,
        uniqueId := cfg.uniqueId, isExisting := false,
        adminConsentGranted := granted,
        applicationIdUri :=
          if cfg.uniqueId == "MAHI_API_ACCESS"
          then some ("api://" ++ created.appId ++ "/api") else none },
     ops ++ secretStep.2.1 ++ [DirOp.postServicePrincipal],
     warns ++ secretStep.2.2)

/-- `GraphApiService.createAppRegistration` (server.js lines 355-536).
Existing-application branch: adopt the match, look up its principal, at most
mint a fresh secret (failure degrades to a placeholder plus warning) and
return immediately — no POST or PATCH of configuration.  New-application
branch: POST the application, PATCH the identifier URI for the API-access
app (that PATCH rethrows on failure, aborting the resource), then finish
with secret, principal and consent. -/
def createAppRegistration (cfg : AppConfig) (env : AppEnv) :
    Except String AppRegResult × List DirOp × List String :=
  let chk := checkExistingApplication env.findApps cfg.name
  match chk.1 with
  | some ex =>
    let spChk := checkExistingServicePrincipal env.findSps ex.appId
    let secretStep : String × List DirOp × List String :=
      if cfg.generateSecret then
        match env.addPassword ex.id with
        | Except.ok s => (s, [DirOp.addPassword ex.id], [])
        | Except.error e =>
          ("Unable to generate new secret - use existing or create manually",
           [DirOp.addPassword ex.id],
           ["Could not create new secret for existing app: " ++ e])
      else
        ("Secret generation skipped - use existing or create manually",
         [], [])
    (Except.ok
      { appId := ex.appId, objectId := ex.id, displayName := ex.displayName,
        clientSecret := secretStep.1,
        servicePrincipalId :=
          (match spChk.1 with | some sp => sp.id | none => "Not found"),
        redirectUris := cfg.redirectUris, type := cfg.type,
        uniqueId := cfg.uniqueId, isExisting := true,
        adminConsentGranted := false, applicationIdUri := none },
     [DirOp.getApplications cfg.name, DirOp.getServicePrincipals ex.appId]
       ++ secretStep.2.1,
     chk.2 ++ spChk.2 ++ secretStep.2.2)
  | none =>
    match env.createApp (buildApplicationData cfg env.freshGuids) with
    | Except.error e =>
      (Except.error ("Failed to create app registration: " ++ e),
       [DirOp.getApplications cfg.name, DirOp.postApplication], chk.2)
    | Except.ok created =>
      if cfg.uniqueId == "MAHI_API_ACCESS" then
        match env.patchApp created.id with
        | Except.error e =>
          (Except.error ("Failed to create app registration: " ++ e),
           [DirOp.getApplications cfg.name, DirOp.postApplication,
            DirOp.patchApplication created.id],
           chk.2 ++ ["Could not set Application ID URI: " ++ e])
        | Except.ok _ =>
          createAppRegistrationFinish cfg env created
            [DirOp.getApplications cfg.name, DirOp.postApplication,
             DirOp.patchApplication created.id] chk.2
      else
        createAppRegistrationFinish cfg env created
          [DirOp.getApplications cfg.name, DirOp.postApplication] chk.2

/-- Claim C5: when the display name resolves to an existing application, the
provision step adopts it (`isExisting = true`), issues no configuration
write at all (no application POST or PATCH, no principal POST), issues at
most one credential-minting request, and a minting failure degrades to the
documented placeholder secret plus a warning instead of failing the
resource. -/
theorem c5_adoption_never_overwrites (cfg : AppConfig) (env : AppEnv)
    (ex : AppObject) (rest : List AppObject)
    (h : env.findApps cfg.name = Except.ok (ex :: rest)) :
    (∃ r, (createAppRegistration cfg env).1 = Except.ok r ∧
      r.isExisting = true) ∧
    ((createAppRegistration cfg env).2.1.countP DirOp.isConfigWrite = 0) ∧
    ((createAppRegistration cfg env).2.1.countP DirOp.isMint ≤ 1) ∧
    (∀ e, cfg.generateSecret = true →
      env.addPassword ex.id = Except.error e →
      ∃ r, (createAppRegistration cfg env).1 = Except.ok r ∧
        r.clientSecret
          = "Unable to generate new secret - use existing or create manually" ∧
        ("Could not create new secret for existing app: " ++ e)
          ∈ (createAppRegistration cfg env).2.2) := by
  have hchk : checkExistingApplication env.findApps cfg.name
      = (some ex, []) := by
    simp [checkExistingApplication, h]
  by_cases hgen : cfg.generateSecret = true
  · cases hap : env.addPassword ex.id with
    | ok s =>
      have hout : createAppRegistration cfg env
          = (Except.ok
              { appId := ex.appId, objectId := ex.id,
                displayName := ex.displayName, clientSecret := s,
                servicePrincipalId :=
                  (match (checkExistingServicePrincipal env.findSps
                      ex.appId).1 with
                   | some sp => sp.id | none => "Not found"),
                redirectUris := cfg.redirectUris, type := cfg.type,
                uniqueId := cfg.uniqueId, isExisting := true,
                adminConsentGranted := false, applicationIdUri := none },
             [DirOp.getApplications cfg.name,
              DirOp.getServicePrincipals ex.appId, DirOp.addPassword ex.id],
             (checkExistingServicePrincipal env.findSps ex.appId).2) := by
        simp [createAppRegistration, hchk, hgen, hap]
      rw [hout]
      refine ⟨⟨_, rfl, rfl⟩, ?_, ?_, ?_⟩
      · simp [List.countP_cons, List.countP_nil, DirOp.isConfigWrite]
      · simp [List.countP_cons, List.countP_nil, DirOp.isMint]
      · intro e hg he
        exact Except.noConfusion he
    | error e0 =>
      have hout : createAppRegistration cfg env
          = (Except.ok
              { appId := ex.appId, objectId := ex.id,
                displayName := ex.displayName,
                clientSecret :=
                  "Unable to generate new secret - use existing or create manually",
                servicePrincipalId :=
                  (match (checkExistingServicePrincipal env.findSps
                      ex.appId).1 with
                   | some sp => sp.id | none => "Not found"),
                redirectUris := cfg.redirectUris, type := cfg.type,
                uniqueId := cfg.uniqueId, isExisting := true,
                adminConsentGranted := false, applicationIdUri := none },
             [DirOp.getApplications cfg.name,
              DirOp.getServicePrincipals ex.appId, DirOp.addPassword ex.id],
             (checkExistingServicePrincipal env.findSps ex.appId).2
               ++ ["Could not create new secret for existing app: " ++ e0]) := by
        simp [createAppRegistration, hchk, hgen, hap]
      rw [hout]
      refine ⟨⟨_, rfl, rfl⟩, ?_, ?_, ?_⟩
      · simp [List.countP_cons, List.countP_nil, DirOp.isConfigWrite]
      · simp [List.countP_cons, List.countP_nil, DirOp.isMint]
      · intro e hg he
        injection he with he3
        subst he3
        exact ⟨_, rfl, rfl, by simp⟩
  · simp only [Bool.not_eq_true] at hgen
    have hout : createAppRegistration cfg env
        = (Except.ok
            { appId := ex.appId, objectId := ex.id,
              displayName := ex.displayName,
              clientSecret :=
                "Secret generation skipped - use existing or create manually",
              servicePrincipalId :=
                (match (checkExistingServicePrincipal env.findSps
                    ex.appId).1 with
                 | some sp => sp.id | none => "Not found"),
              redirectUris := cfg.redirectUris, type := cfg.type,
              uniqueId := cfg.uniqueId, isExisting := true,
              adminConsentGranted := false, applicationIdUri := none },
           [DirOp.getApplications cfg.name,
            DirOp.getServicePrincipals ex.appId],
           (checkExistingServicePrincipal env.findSps ex.appId).2) := by
      simp [createAppRegistration, hchk, hgen]
    rw [hout]
    refine ⟨⟨_, rfl, rfl⟩, ?_, ?_, ?_⟩
    · simp [List.countP_cons, List.countP_nil, DirOp.isConfigWrite]
    · simp [List.countP_cons, List.countP_nil, DirOp.isMint]
    · intro e hg he
      rw [hgen] at hg
      exact absurd hg (by simp)

/-- Adopted-application configuration for the C5 witness. -/
def c5cfg : AppConfig :=
  { name := "n", uniqueId := "MAHI_CONNECTOR_APP", scopes := ["user.read"],
    type := "web", redirectUris := ["https://cb.example/signin-oidc"],
    generateSecret := true, grantAdminConsent := false }

/-- Directory oracle for the C5 witness: the name resolves to an existing
application. -/
def c5env : AppEnv :=
  { findApps := fun _ => Except.ok [⟨"o1", "a1", "n"⟩],
    findSps := fun _ => Except.ok [⟨"spX"⟩],
    addPassword := fun _ => Except.ok "minted-secret",
    createApp := fun _ => Except.error "unused",
    patchApp := fun _ => Except.error "unused",
    createSp := fun _ => Except.error "unused",
    spIdByAppId := fun _ => Except.error "unused",
    grantRole := fun _ _ => Except.error "unused",
    freshGuids := fun _ => "guid-0" }

/-- Claim C5 witness: the adoption theorem applied to a concrete adopted
application. -/
theorem c5_adoption_never_overwrites_witness :
    ((createAppRegistration c5cfg c5env).2.1.countP DirOp.isConfigWrite
      = 0) ∧
    ((createAppRegistration c5cfg c5env).2.1.countP DirOp.isMint ≤ 1) :=
  ⟨(c5_adoption_never_overwrites c5cfg c5env ⟨"o1", "a1", "n"⟩ [] rfl).2.1,
   (c5_adoption_never_overwrites c5cfg c5env ⟨"o1", "a1", "n"⟩ []
      rfl).2.2.1⟩

/-- In the new-application tail, a successful outcome's credential is either
the minted secret or one of the two new-application placeholder strings. -/
theorem createAppRegistrationFinish_secret (cfg : AppConfig) (env : AppEnv)
    (created : AppObject) (ops : List DirOp) (warns : List String)
    (r : AppRegResult)
    (h : (createAppRegistrationFinish cfg env created ops warns).1
        = Except.ok r) :
    env.addPassword created.id = Except.ok r.clientSecret ∨
    r.clientSecret = "Secret generation failed - create manually if needed" ∨
    r.clientSecret
      = "Secret generation skipped - create manually if needed" := by
  by_cases hgen : cfg.generateSecret = true
  · cases hap : env.addPassword created.id with
    | ok s =>
      cases hcs : env.createSp created.appId with
      | error e =>
        simp only [createAppRegistrationFinish, hgen, if_true, hap, hcs]
          at h
        exact absurd h (by simp)
      | ok sp =>
        simp only [createAppRegistrationFinish, hgen, if_true, hap, hcs,
          Except.ok.injEq] at h
        subst h
        exact Or.inl rfl
    | error e0 =>
      cases hcs : env.createSp created.appId with
      | error e =>
        simp only [createAppRegistrationFinish, hgen, if_true, hap, hcs]
          at h
        exact absurd h (by simp)
      | ok sp =>
        simp only [createAppRegistrationFinish, hgen, if_true, hap, hcs,
          Except.ok.injEq] at h
        subst h
        exact Or.inr (Or.inl rfl)
  · simp only [Bool.not_eq_true] at hgen
    cases hcs : env.createSp created.appId with
    | error e =>
      simp only [createAppRegistrationFinish, hgen, Bool.false_eq_true,
        if_false, hcs] at h
      exact absurd h (by simp)
    | ok sp =>
      simp only [createAppRegistrationFinish, hgen, Bool.false_eq_true,
        if_false, hcs, Except.ok.injEq] at h
      subst h
      exact Or.inr (Or.inr rfl)

/-- In the new-application path, a successful outcome's credential is either
the minted secret or one of the new-application placeholder strings. -/
theorem createAppRegistration_new_secret (cfg : AppConfig) (env : AppEnv)
    (r : AppRegResult) (w : List String)
    (hchk : checkExistingApplication env.findApps cfg.name = (none, w))
    (h : (createAppRegistration cfg env).1 = Except.ok r) :
    (∃ oid, env.addPassword oid = Except.ok r.clientSecret) ∨
    r.clientSecret = "Secret generation failed - create manually if needed" ∨
    r.clientSecret
      = "Secret generation skipped - create manually if needed" := by
  simp only [createAppRegistration, hchk] at h
  cases hca : env.createApp (buildApplicationData cfg env.freshGuids) with
  | error e =>
    simp only [hca] at h
    exact absurd h (by simp)
  | ok created =>
    simp only [hca] at h
    by_cases hqu : (cfg.uniqueId == "MAHI_API_ACCESS") = true
    · simp only [hqu, if_true] at h
      cases hpa : env.patchApp created.id with
      | error e =>
        simp only [hpa] at h
        exact absurd h (by simp)
      | ok u =>
        simp only [hpa] at h
        rcases createAppRegistrationFinish_secret cfg env created _ _ r h
          with hm | hp | hp
        · exact Or.inl ⟨created.id, hm⟩
        · exact Or.inr (Or.inl hp)
        · exact Or.inr (Or.inr hp)
    · simp only [Bool.not_eq_true] at hqu
      simp only [hqu, Bool.false_eq_true, if_false] at h
      rcases createAppRegistrationFinish_secret cfg env created _ _ r h
        with hm | hp | hp
      · exact Or.inl ⟨created.id, hm⟩
      · exact Or.inr (Or.inl hp)
      · exact Or.inr (Or.inr hp)

/-- Whether `createAppRegistration` succeeds or fails never depends on the
credential-minting oracle: minting failure is absorbed into a placeholder
and a warning on every path. -/
theorem createAppRegistration_isOk_addPassword (cfg : AppConfig)
    (env : AppEnv) (f : String → Except String String) :
    exceptIsOk (createAppRegistration cfg
        { env with addPassword := f }).1
      = exceptIsOk (createAppRegistration cfg env).1 := by
  cases env with
  | mk fa fs ap ca pa cs spi gr fg =>
    cases hfa : fa cfg.name with
    | ok vs =>
      cases vs with
      | cons ex rest =>
        simp [createAppRegistration, checkExistingApplication, hfa,
          exceptIsOk]
      | nil =>
        cases hca : ca (buildApplicationData cfg fg) with
        | error e =>
          simp [createAppRegistration, checkExistingApplication, hfa, hca,
            exceptIsOk]
        | ok created =>
          by_cases hqu : (cfg.uniqueId == "MAHI_API_ACCESS") = true
          · cases hpa : pa created.id with
            | error e =>
              simp [createAppRegistration, checkExistingApplication, hfa,
                hca, hqu, hpa, exceptIsOk]
            | ok u =>
              cases hcs : cs created.appId with
              | error e =>
                simp [createAppRegistration,
                  createAppRegistrationFinish, checkExistingApplication,
                  hfa, hca, hqu, hpa, hcs, exceptIsOk]
              | ok sp =>
                simp [createAppRegistration,
                  createAppRegistrationFinish, checkExistingApplication,
                  hfa, hca, hqu, hpa, hcs, exceptIsOk]
          · simp only [Bool.not_eq_true] at hqu
            cases hcs : cs created.appId with
            | error e =>
              simp [createAppRegistration, createAppRegistrationFinish,
                checkExistingApplication, hfa, hca, hqu, hcs, exceptIsOk]
            | ok sp =>
              simp [createAppRegistration, createAppRegistrationFinish,
                checkExistingApplication, hfa, hca, hqu, hcs, exceptIsOk]
    | error e0 =>
      cases hca : ca (buildApplicationData cfg fg) with
      | error e =>
        simp [createAppRegistration, checkExistingApplication, hfa, hca,
          exceptIsOk]
      | ok created =>
        by_cases hqu : (cfg.uniqueId == "MAHI_API_ACCESS") = true
        · cases hpa : pa created.id with
          | error e =>
            simp [createAppRegistration, checkExistingApplication, hfa,
              hca, hqu, hpa, exceptIsOk]
          | ok u =>
            cases hcs : cs created.appId with
            | error e =>
              simp [createAppRegistration, createAppRegistrationFinish,
                checkExistingApplication, hfa, hca, hqu, hpa, hcs,
                exceptIsOk]
            | ok sp =>
              simp [createAppRegistration, createAppRegistrationFinish,
                checkExistingApplication, hfa, hca, hqu, hpa, hcs,
                exceptIsOk]
        · simp only [Bool.not_eq_true] at hqu
          cases hcs : cs created.appId with
          | error e =>
            simp [createAppRegistration, createAppRegistrationFinish,
              checkExistingApplication, hfa, hca, hqu, hcs, exceptIsOk]
          | ok sp =>
            simp [createAppRegistration, createAppRegistrationFinish,
              checkExistingApplication, hfa, hca, hqu, hcs, exceptIsOk]

/-- Claim C9: every successful provisioning outcome's credential field is a
string that is either the minted secret or one of the four documented
human-readable placeholders (never a null-like absent value), and whether
the provision step succeeds never depends on the minting outcome — a
minting failure never fails the resource. -/
theorem c9_credential_never_null (cfg : AppConfig) (env : AppEnv)
    (r : AppRegResult)
    (h : (createAppRegistration cfg env).1 = Except.ok r) :
    ((∃ oid, env.addPassword oid = Except.ok r.clientSecret) ∨
      r.clientSecret ∈
        ["Unable to generate new secret - use existing or create manually",
         "Secret generation skipped - use existing or create manually",
         "Secret generation failed - create manually if needed",
         "Secret generation skipped - create manually if needed"]) ∧
    (∀ f, exceptIsOk (createAppRegistration cfg
        { env with addPassword := f }).1
      = exceptIsOk (createAppRegistration cfg env).1) := by
  refine ⟨?_, fun f => createAppRegistration_isOk_addPassword cfg env f⟩
  cases hfa : env.findApps cfg.name with
  | error e0 =>
    rcases createAppRegistration_new_secret cfg env r
        ["Error checking existing application: " ++ e0]
        (by simp [checkExistingApplication, hfa]) h with hm | hp | hp
    · exact Or.inl hm
    · exact Or.inr (by simp [hp])
    · exact Or.inr (by simp [hp])
  | ok vs =>
    cases vs with
    | nil =>
      rcases createAppRegistration_new_secret cfg env r []
          (by simp [checkExistingApplication, hfa]) h with hm | hp | hp
      · exact Or.inl hm
      · exact Or.inr (by simp [hp])
      · exact Or.inr (by simp [hp])
    | cons ex rest =>
      have hchk : checkExistingApplication env.findApps cfg.name
          = (some ex, []) := by
        simp [checkExistingApplication, hfa]
      by_cases hgen : cfg.generateSecret = true
      · cases hap : env.addPassword ex.id with
        | ok s =>
          simp only [createAppRegistration, hchk, hgen, if_true, hap,
            Except.ok.injEq] at h
          subst h
          exact Or.inl ⟨ex.id, hap⟩
        | error e0 =>
          simp only [createAppRegistration, hchk, hgen, if_true, hap,
            Except.ok.injEq] at h
          subst h
          exact Or.inr (by simp)
      · simp only [Bool.not_eq_true] at hgen
        simp only [createAppRegistration, hchk, hgen, Bool.false_eq_true,
          if_false, Except.ok.injEq] at h
        subst h
        exact Or.inr (by simp)

/-- Configuration for the C9 witness: a fresh web application whose secret
is minted successfully. -/
def c9cfg : AppConfig :=
  { name := "fresh", uniqueId := "MAHI_TEAMS_APP", scopes := ["resource.manage"],
    type := "spa", redirectUris := ["https://cb.example/auth/callback"],
    generateSecret := true, grantAdminConsent := false }

/-- Directory oracle for the C9 witness: nothing exists yet and every create
call succeeds. -/
def c9env : AppEnv :=
  { findApps := fun _ => Except.ok [],
    findSps := fun _ => Except.ok [],
    addPassword := fun _ => Except.ok "minted-secret-9",
    createApp := fun _ => Except.ok ⟨"obj9", "app9", "fresh"⟩,
    patchApp := fun _ => Except.ok (),
    createSp := fun _ => Except.ok ⟨"sp9"⟩,
    spIdByAppId := fun _ => Except.ok "gsp",
    grantRole := fun _ _ => Except.ok (),
    freshGuids := fun _ => "guid-9" }

/-- Claim C9 witness: the credential theorem applied to a concrete
successful run, instantiating the minting-independence clause with an
always-failing minting oracle. -/
theorem c9_credential_never_null_witness :
    exceptIsOk (createAppRegistration c9cfg
        { c9env with addPassword := fun _ => Except.error "mint down" }).1
      = exceptIsOk (createAppRegistration c9cfg c9env).1 :=
  (c9_credential_never_null c9cfg c9env
      ((createAppRegistration c9cfg c9env).1.toOption.getD
        { appId := "", objectId := "", displayName := "",
          clientSecret := "", servicePrincipalId := "", redirectUris := [],
          type := "", uniqueId := "", isExisting := false,
          adminConsentGranted := false, applicationIdUri := none })
      (by decide)).2 (fun _ => Except.error "mint down")

/-- A successful new-application tail always reports a newly created (not
adopted) resource. -/
theorem createAppRegistrationFinish_isExisting (cfg : AppConfig)
    (env : AppEnv) (created : AppObject) (ops : List DirOp)
    (warns : List String) (r : AppRegResult)
    (h : (createAppRegistrationFinish cfg env created ops warns).1
        = Except.ok r) :
    r.isExisting = false := by
  cases hcs : env.createSp created.appId with
  | error e =>
    simp only [createAppRegistrationFinish, hcs] at h
    exact absurd h (by simp)
  | ok sp =>
    simp only [createAppRegistrationFinish, hcs, Except.ok.injEq] at h
    subst h
    rfl

/-- Claim C10: a failing directory lookup is treated as absence — both
existence checks return `none` instead of propagating the error, and
consequently `createAppRegistration` takes the creation path, so any
successful outcome is a newly created application, never an adoption. -/
theorem c10_lookup_failure_means_absent (env : AppEnv) (cfg : AppConfig)
    (fs : String → Except String (List SPObj)) (appId e1 e2 : String)
    (h1 : env.findApps cfg.name = Except.error e1)
    (h2 : fs appId = Except.error e2) :
    (checkExistingApplication env.findApps cfg.name).1 = none ∧
    (checkExistingServicePrincipal fs appId).1 = none ∧
    ∀ r, (createAppRegistration cfg env).1 = Except.ok r →
      r.isExisting = false := by
  refine ⟨by simp [checkExistingApplication, h1],
          by simp [checkExistingServicePrincipal, h2], ?_⟩
  intro r h
  have hchk : checkExistingApplication env.findApps cfg.name
      = (none, ["Error checking existing application: " ++ e1]) := by
    simp [checkExistingApplication, h1]
  simp only [createAppRegistration, hchk] at h
  cases hca : env.createApp (buildApplicationData cfg env.freshGuids) with
  | error e =>
    simp only [hca] at h
    exact absurd h (by simp)
  | ok created =>
    simp only [hca] at h
    by_cases hqu : (cfg.uniqueId == "MAHI_API_ACCESS") = true
    · simp only [hqu, if_true] at h
      cases hpa : env.patchApp created.id with
      | error e =>
        simp only [hpa] at h
        exact absurd h (by simp)
      | ok u =>
        simp only [hpa] at h
        exact createAppRegistrationFinish_isExisting cfg env created _ _ r h
    · simp only [Bool.not_eq_true] at hqu
      simp only [hqu, Bool.false_eq_true, if_false] at h
      exact createAppRegistrationFinish_isExisting cfg env created _ _ r h

/-- Configuration for the C10 witness. -/
def c10cfg : AppConfig :=
  { name := "x", uniqueId := "MAHI_CONNECTOR_APP", scopes := ["user.read"],
    type := "web", redirectUris := ["https://cb.example/signin-oidc"],
    generateSecret := true, grantAdminConsent := false }

/-- Directory oracle for the C10 witness: the existence lookup itself
errors. -/
def c10env : AppEnv :=
  { findApps := fun _ => Except.error "network down",
    findSps := fun _ => Except.error "network down",
    addPassword := fun _ => Except.ok "s10",
    createApp := fun _ => Except.ok ⟨"obj10", "app10", "x"⟩,
    patchApp := fun _ => Except.ok (),
    createSp := fun _ => Except.ok ⟨"sp10"⟩,
    spIdByAppId := fun _ => Except.ok "gsp",
    grantRole := fun _ _ => Except.ok (),
    freshGuids := fun _ => "guid-10" }

/-- Claim C10 witness: the lookup-failure theorem applied to a concrete
erroring directory. -/
theorem c10_lookup_failure_means_absent_witness :
    (checkExistingApplication c10env.findApps c10cfg.name).1 = none ∧
    (checkExistingServicePrincipal (fun _ =>
        Except.error "network down") "a10").1 = none :=
  ⟨(c10_lookup_failure_means_absent c10env c10cfg
      (fun _ => Except.error "network down") "a10" "network down"
      "network down" rfl rfl).1,
   (c10_lookup_failure_means_absent c10env c10cfg
      (fun _ => Except.error "network down") "a10" "network down"
      "network down" rfl rfl).2.1⟩

/-- The per-resource loop shared by the app-registration and enterprise
steps of the `/api/provision` handler (server.js lines 1304-1324 and
1363-1383): each resource is attempted; a success is appended to the
results, a failure is converted into one error string; the loop never
aborts. -/
def runResourceLoop {α β : Type} (runner : α → Except String β)
    (errMsg : α → String → String) : List α → List β × List String
  | [] => ([], [])
  | c :: rest =>
    let r := runResourceLoop runner errMsg rest
    match runner c with
    | Except.ok b => (b :: r.1, r.2)
    | Except.error e => (r.1, errMsg c e :: r.2)

/-- Error string recorded when one app registration fails (server.js line
1320). -/
def appRegErrorMsg (c : AppConfig) (e : String) : String :=
  "App Registration " ++ c.name ++ " (" ++ c.uniqueId ++ ") failed: " ++ e

/-- Error string recorded when one enterprise application fails (server.js
line 1379). -/
def enterpriseErrorMsg (c : EnterpriseConfig) (e : String) : String :=
  "Enterprise App " ++ c.name ++ " (" ++ c.uniqueId ++ ") failed: " ++ e

/-- The provisioning response body (server.js lines 1439-1488): the success
branch always carries `success := true` with the per-resource report; the
catch branch carries `success := false` and an error message. -/
structure ProvisionResponse where
  success : Bool
  errorMessage : Option String
  errors : List String
  warnings : List String
  appRegistrations : List AppRegResult
  enterpriseApplications : List EnterpriseResult
  deriving Repr

/-- The `/api/provision` handler (server.js lines 1173-1490) after input
validation, with every remote step abstracted as an outcome oracle:
`initOutcome` is the up-front directory authentication; the resource-group
creation, both resource loops and the cross-permission step each record
errors or warnings in the report; only a failed `initOutcome` reaches the
catch branch that answers `success := false`. -/
def provisionHandler (initOutcome : Except String Unit)
    (rgOutcome : Except String String)
    (appConfigs : List AppConfig)
    (createApp : AppConfig → Except String AppRegResult)
    (entConfigs : List EnterpriseConfig)
    (createEnt : EnterpriseConfig → Except String EnterpriseResult)
    (enableCross : Bool) (crossOutcome : Except String Unit)
    (grantConsentFlag : Bool) : ProvisionResponse :=
  match initOutcome with
  | Except.error _ =>
    { success := false, errorMessage := some "Provisioning failed",
      errors := [], warnings := [], appRegistrations := [],
      enterpriseApplications := [] }
  | Except.ok _ =>
    let rgErrs : List String :=
      match rgOutcome with
      | Except.ok _ => []
      | Except.error e => ["Resource Group creation failed: " ++ e]
    let appLoop := runResourceLoop createApp appRegErrorMsg appConfigs
    let entLoop := runResourceLoop createEnt enterpriseErrorMsg entConfigs
    let crossStep : List String × List String :=
      if enableCross && decide (3 ≤ appLoop.1.length) then
        match crossOutcome with
        | Except.ok _ =>
          ([], ["Cross-application permissions configured including App3 web platform and My API access"])
        | Except.error e =>
          (["Cross-application permissions failed: " ++ e], [])
      else if !enableCross then
        ([], ["Cross-application permissions skipped - configure manually if needed"])
      else ([], [])
    let manualWarns : List String :=
      ["Application Proxy connectors must be installed manually"]
      ++ (if entLoop.1.any (fun r => r.type == "saml") then
            ["SAML certificates need to be configured manually for Enterprise App 1"]
          else [])
      ++ (if grantConsentFlag then
            ["Admin consent attempted - verify permissions in Azure Portal if needed"]
          else [])
    { success := true, errorMessage := none,
      errors := rgErrs ++ appLoop.2 ++ entLoop.2 ++ crossStep.1,
      warnings := crossStep.2 ++ manualWarns,
      appRegistrations := appLoop.1,
      enterpriseApplications := entLoop.1 }

/-- The successful results of the per-resource loop distribute over
concatenation of the input list. -/
theorem runResourceLoop_append_fst {α β : Type}
    (runner : α → Except String β) (m : α → String → String)
    (xs ys : List α) :
    (runResourceLoop runner m (xs ++ ys)).1
      = (runResourceLoop runner m xs).1
        ++ (runResourceLoop runner m ys).1 := by
  induction xs with
  | nil => simp [runResourceLoop]
  | cons c rest ih =>
    cases hc : runner c with
    | ok b => simp [runResourceLoop, hc, ih]
    | error e => simp [runResourceLoop, hc, ih]

/-- The error strings of the per-resource loop distribute over
concatenation of the input list. -/
theorem runResourceLoop_append_snd {α β : Type}
    (runner : α → Except String β) (m : α → String → String)
    (xs ys : List α) :
    (runResourceLoop runner m (xs ++ ys)).2
      = (runResourceLoop runner m xs).2
        ++ (runResourceLoop runner m ys).2 := by
  induction xs with
  | nil => simp [runResourceLoop]
  | cons c rest ih =>
    cases hc : runner c with
    | ok b => simp [runResourceLoop, hc, ih]
    | error e => simp [runResourceLoop, hc, ih]

/-- When every resource succeeds, the loop records no error. -/
theorem runResourceLoop_all_ok {α β : Type}
    (runner : α → Except String β) (m : α → String → String)
    (xs : List α) (h : ∀ c ∈ xs, ∃ b, runner c = Except.ok b) :
    (runResourceLoop runner m xs).2 = [] := by
  induction xs with
  | nil => rfl
  | cons c rest ih =>
    obtain ⟨b, hb⟩ := h c (List.mem_cons_self _ _)
    have ih2 := ih (fun x hx => h x (List.mem_cons_of_mem _ hx))
    simp [runResourceLoop, hb, ih2]

/-- Every resource whose runner succeeds contributes its result to the
loop's success list. -/
theorem runResourceLoop_mem_ok {α β : Type}
    (runner : α → Except String β) (m : α → String → String)
    (xs : List α) (c : α) (b : β)
    (hc : c ∈ xs) (hb : runner c = Except.ok b) :
    b ∈ (runResourceLoop runner m xs).1 := by
  induction xs with
  | nil => cases hc
  | cons x rest ih =>
    rcases List.mem_cons.mp hc with h1 | h1
    · subst h1
      simp [runResourceLoop, hb]
    · cases hx : runner x with
      | ok b2 =>
        simp only [runResourceLoop, hx]
        exact List.mem_cons_of_mem _ (ih h1)
      | error e =>
        simp only [runResourceLoop, hx]
        exact ih h1

/-- Claim C4: when exactly one application spec fails to create and every
other resource succeeds, the run is not aborted (the response still reports
success), the report's errors list contains exactly the one error string
naming that application, and every other spec's successful result still
appears among the reported registrations. -/
theorem c4_partial_failure_containment (rgName : String)
    (pre post : List AppConfig) (c : AppConfig) (e : String)
    (createApp : AppConfig → Except String AppRegResult)
    (entConfigs : List EnterpriseConfig)
    (createEnt : EnterpriseConfig → Except String EnterpriseResult)
    (crossOutcome : Except String Unit) (gflag : Bool)
    (hpre : ∀ x ∈ pre, ∃ b, createApp x = Except.ok b)
    (hpost : ∀ x ∈ post, ∃ b, createApp x = Except.ok b)
    (hfail : createApp c = Except.error e)
    (hent : ∀ x ∈ entConfigs, ∃ b, createEnt x = Except.ok b) :
    (provisionHandler (Except.ok ()) (Except.ok rgName) (pre ++ c :: post)
        createApp entConfigs createEnt false crossOutcome gflag).errors
      = [appRegErrorMsg c e] ∧
    (provisionHandler (Except.ok ()) (Except.ok rgName) (pre ++ c :: post)
        createApp entConfigs createEnt false crossOutcome gflag).success
      = true ∧
    (∀ x b, x ∈ pre ++ post → createApp x = Except.ok b →
      b ∈ (provisionHandler (Except.ok ()) (Except.ok rgName)
          (pre ++ c :: post) createApp entConfigs createEnt false
          crossOutcome gflag).appRegistrations) := by
  have hpre2 := runResourceLoop_all_ok createApp appRegErrorMsg pre hpre
  have hpost2 := runResourceLoop_all_ok createApp appRegErrorMsg post hpost
  have hent2 := runResourceLoop_all_ok createEnt enterpriseErrorMsg
    entConfigs hent
  have happ : (runResourceLoop createApp appRegErrorMsg
      (pre ++ c :: post)).2 = [appRegErrorMsg c e] := by
    rw [runResourceLoop_append_snd, hpre2]
    simp [runResourceLoop, hfail, hpost2]
  refine ⟨?_, ?_, ?_⟩
  · simp [provisionHandler, happ, hent2]
  · rfl
  · intro x b hx hb
    have hx2 : x ∈ pre ++ c :: post := by
      rcases List.mem_append.mp hx with h1 | h1
      · exact List.mem_append.mpr (Or.inl h1)
      · exact List.mem_append.mpr (Or.inr (List.mem_cons_of_mem _ h1))
    simp only [provisionHandler]
    exact runResourceLoop_mem_ok createApp appRegErrorMsg _ x b hx2 hb

/-- Creation oracle for the C4 witness: the API-access registration fails,
the other two succeed. -/
def c4createOracle : AppConfig → Except String AppRegResult := fun cfg =>
  if cfg.uniqueId == "MAHI_API_ACCESS" then
    Except.error "Request_BadRequest"
  else
    Except.ok
      { appId := "a-" ++ cfg.uniqueId, objectId := "o-" ++ cfg.uniqueId,
        displayName := cfg.name, clientSecret := "s",
        servicePrincipalId := "sp", redirectUris := cfg.redirectUris,
        type := cfg.type, uniqueId := cfg.uniqueId, isExisting := false,
        adminConsentGranted := false, applicationIdUri := none }

/-- First app spec of the C4 witness run. -/
def c4cfgA : AppConfig :=
  { name := "myapp-dev-a", uniqueId := "MAHI_CONNECTOR_APP",
    scopes := ["user.read"], type := "web",
    redirectUris := ["https://a.example/signin-oidc"],
    generateSecret := true, grantAdminConsent := true }

/-- Failing app spec of the C4 witness run. -/
def c4cfgB : AppConfig :=
  { name := "myapp-dev-b", uniqueId := "MAHI_API_ACCESS",
    scopes := ["api.access"], type := "web",
    redirectUris := ["https://b.example/signin-oidc"],
    generateSecret := true, grantAdminConsent := true }

/-- Last app spec of the C4 witness run. -/
def c4cfgC : AppConfig :=
  { name := "myapp-dev-c", uniqueId := "MAHI_TEAMS_APP",
    scopes := ["resource.manage"], type := "spa",
    redirectUris := ["https://c.example/auth/callback"],
    generateSecret := true, grantAdminConsent := true }

/-- Claim C4 witness: the containment theorem applied to a concrete run in
which only the middle registration fails. -/
theorem c4_partial_failure_containment_witness :
    (provisionHandler (Except.ok ()) (Except.ok "rg")
        ([c4cfgA] ++ c4cfgB :: [c4cfgC]) c4createOracle []
        (fun _ => Except.error "unused") false (Except.ok ())
        true).errors
      = [appRegErrorMsg c4cfgB "Request_BadRequest"] ∧
    (provisionHandler (Except.ok ()) (Except.ok "rg")
        ([c4cfgA] ++ c4cfgB :: [c4cfgC]) c4createOracle []
        (fun _ => Except.error "unused") false (Except.ok ())
        true).success = true :=
  ⟨(c4_partial_failure_containment "rg" [c4cfgA] [c4cfgC] c4cfgB
      "Request_BadRequest" c4createOracle []
      (fun _ => Except.error "unused") (Except.ok ()) true
      (by intro x hx; simp at hx; subst hx; exact ⟨_, rfl⟩)
      (by intro x hx; simp at hx; subst hx; exact ⟨_, rfl⟩)
      rfl
      (by intro x hx; simp at hx)).1,
   (c4_partial_failure_containment "rg" [c4cfgA] [c4cfgC] c4cfgB
      "Request_BadRequest" c4createOracle []
      (fun _ => Except.error "unused") (Except.ok ()) true
      (by intro x hx; simp at hx; subst hx; exact ⟨_, rfl⟩)
      (by intro x hx; simp at hx; subst hx; exact ⟨_, rfl⟩)
      rfl
      (by intro x hx; simp at hx)).2.1⟩

/-- Claim C6: the handler's top-level `success` flag equals exactly the
success of the up-front directory authentication — it is `true` whenever
authentication succeeded, no matter how many per-resource steps failed, and
`false` only when authentication itself failed. -/
theorem c6_success_iff_auth (initOutcome : Except String Unit)
    (rgOutcome : Except String String) (appConfigs : List AppConfig)
    (createApp : AppConfig → Except String AppRegResult)
    (entConfigs : List EnterpriseConfig)
    (createEnt : EnterpriseConfig → Except String EnterpriseResult)
    (enableCross : Bool) (crossOutcome : Except String Unit)
    (gflag : Bool) :
    (provisionHandler initOutcome rgOutcome appConfigs createApp entConfigs
        createEnt enableCross crossOutcome gflag).success
      = (match initOutcome with
         | Except.ok _ => true
         | Except.error _ => false) := by
  cases initOutcome with
  | ok u => rfl
  | error e => rfl
